import Mathlib

/-!
Shallow embedding of the reference classification and resolution-policy
layer of the turbo repository (crates/turbopack-core):
`src/reference_type.rs` and `src/resolve/node.rs`.

Handles (`Vc<T>`, `Arc<String>` identity) are modelled as plain values with
decidable equality: `Vc<ModulePart>`, `Vc<InnerAssets>` and
`Vc<ImportContext>` become `Nat` tags, `Arc<String>` becomes `String`.
The `todo!()` arms of `includes` and `Display::fmt` are modelled by
returning `Option` values, `none` standing for the panic.
-/

/-- Subtype family of `ReferenceType::CommonJs`
(`CommonJsReferenceSubType` in `reference_type.rs`). -/
inductive CommonJsReferenceSubType where
  | Custom (n : Nat)
  | Undefined
deriving DecidableEq, Repr

/-- Subtype family of `ReferenceType::EcmaScriptModules`
(`EcmaScriptModulesReferenceSubType`); `ImportPart` carries a
`Vc<ModulePart>` handle, modelled as a `Nat` tag. -/
inductive EcmaScriptModulesReferenceSubType where
  | ImportPart (part : Nat)
  | Import
  | DynamicImport
  | Custom (n : Nat)
  | Undefined
deriving DecidableEq, Repr

/-- Accumulated list of conditions applied to a module through its import
path (`ImportContext` in `reference_type.rs`). -/
structure ImportContext where
  layers : List String
  supports : List String
  media : List String
deriving DecidableEq, Repr

/-- Constructor `ImportContext::new(layers, media, supports)`: note the
source's positional parameter order is layers, media, supports; the body
assigns each parameter to the struct field of the same name. -/
def ImportContext.new (layers media supports : List String) : ImportContext :=
  { layers := layers, media := media, supports := supports }

/-- Method `ImportContext::add_attributes(self, attr_layer, attr_media,
attr_supports)`: for each family, clone the list and push the attribute
value at the end when it is present and not already contained. -/
def ImportContext.add_attributes (self : ImportContext)
    (attr_layer attr_media attr_supports : Option String) : ImportContext :=
  let layers :=
    match attr_layer with
    | some l => if l ∈ self.layers then self.layers else self.layers ++ [l]
    | none => self.layers
  let media :=
    match attr_media with
    | some m => if m ∈ self.media then self.media else self.media ++ [m]
    | none => self.media
  let supports :=
    match attr_supports with
    | some s => if s ∈ self.supports then self.supports else self.supports ++ [s]
    | none => self.supports
  ImportContext.new layers media supports

/-- Subtype family of `ReferenceType::Css` (`CssReferenceSubType`);
`AtImport` carries an `Option<Vc<ImportContext>>` handle, modelled as an
`Option Nat` tag. -/
inductive CssReferenceSubType where
  | AtImport (ctx : Option Nat)
  | Compose
  | Internal
  | Custom (n : Nat)
  | Undefined
deriving DecidableEq, Repr

/-- Subtype family of `ReferenceType::Url` (`UrlReferenceSubType`). -/
inductive UrlReferenceSubType where
  | EcmaScriptNewUrl
  | CssUrl
  | Custom (n : Nat)
  | Undefined
deriving DecidableEq, Repr

/-- Subtype family of `ReferenceType::TypeScript`
(`TypeScriptReferenceSubType`). -/
inductive TypeScriptReferenceSubType where
  | Custom (n : Nat)
  | Undefined
deriving DecidableEq, Repr

/-- Subtype family of `ReferenceType::Entry` (`EntryReferenceSubType`). -/
inductive EntryReferenceSubType where
  | Web
  | Page
  | PagesApi
  | AppPage
  | AppRoute
  | AppClientComponent
  | Middleware
  | Instrumentation
  | Runtime
  | Custom (n : Nat)
  | Undefined
deriving DecidableEq, Repr

/-- Top-level taxonomy `ReferenceType` from `reference_type.rs`;
`Internal` carries a `Vc<InnerAssets>` handle, modelled as a `Nat` tag. -/
inductive ReferenceType where
  | CommonJs (sub : CommonJsReferenceSubType)
  | EcmaScriptModules (sub : EcmaScriptModulesReferenceSubType)
  | Css (sub : CssReferenceSubType)
  | Url (sub : UrlReferenceSubType)
  | TypeScript (sub : TypeScriptReferenceSubType)
  | Entry (sub : EntryReferenceSubType)
  | Runtime
  | Internal (assets : Nat)
  | Custom (n : Nat)
  | Undefined
deriving DecidableEq, Repr

/-- Top-level constructor tags of `ReferenceType`, used to state claims
about same-kind matching. -/
inductive TopKind where
  | commonJs
  | ecmaScriptModules
  | css
  | url
  | typeScript
  | entry
  | runtime
  | internal
  | custom
  | undefined
deriving DecidableEq, Repr

/-- Top-level constructor tag of a `ReferenceType` value. -/
def ReferenceType.kind : ReferenceType → TopKind
  | .CommonJs _ => .commonJs
  | .EcmaScriptModules _ => .ecmaScriptModules
  | .Css _ => .css
  | .Url _ => .url
  | .TypeScript _ => .typeScript
  | .Entry _ => .entry
  | .Runtime => .runtime
  | .Internal _ => .internal
  | .Custom _ => .custom
  | .Undefined => .undefined

/-- Body of the `match self` statement of `ReferenceType::includes`: the
part reached when the leading `self == other` short-circuit fails. The
`Custom(_)` arm of the source is `todo!()` (a panic), modelled as `none`;
every other arm returns `some` of the boolean the source computes with
`matches!`. -/
def ReferenceType.includes_tail (self other : ReferenceType) : Option Bool :=
  match self with
  | .CommonJs sub =>
      some ((match other with | .CommonJs _ => true | _ => false)
        && (match sub with | .Undefined => true | _ => false))
  | .EcmaScriptModules sub =>
      some ((match other with | .EcmaScriptModules _ => true | _ => false)
        && (match sub with | .Undefined => true | _ => false))
  | .Css (.AtImport _) =>
      some (match other with | .Css (.AtImport _) => true | _ => false)
  | .Css sub =>
      some ((match other with | .Css _ => true | _ => false)
        && (match sub with | .Undefined => true | _ => false))
  | .Url sub =>
      some ((match other with | .Url _ => true | _ => false)
        && (match sub with | .Undefined => true | _ => false))
  | .TypeScript sub =>
      some ((match other with | .TypeScript _ => true | _ => false)
        && (match sub with | .Undefined => true | _ => false))
  | .Entry sub =>
      some ((match other with | .Entry _ => true | _ => false)
        && (match sub with | .Undefined => true | _ => false))
  | .Runtime => some (match other with | .Runtime => true | _ => false)
  | .Internal _ => some (match other with | .Internal _ => true | _ => false)
  | .Custom _ => none
  | .Undefined => some true

/-- Method `ReferenceType::includes(&self, other)`: first the
`self == other` short-circuit returning `true`, then the `match self`
statement (`ReferenceType.includes_tail`). -/
def ReferenceType.includes (self other : ReferenceType) : Option Bool :=
  if self = other then some true
  else self.includes_tail other

/-- Rendered label of `impl Display for ReferenceType`, one label per
top-level kind. The `Custom(_)` arm of the source is `todo!()` (a panic),
modelled as `none`. -/
def ReferenceType.display : ReferenceType → Option String
  | .CommonJs _ => some "commonjs"
  | .EcmaScriptModules sub =>
      match sub with
      | .ImportPart _ => some "EcmaScript Modules (part)"
      | _ => some "EcmaScript Modules"
  | .Css _ => some "css"
  | .Url _ => some "url"
  | .TypeScript _ => some "typescript"
  | .Entry _ => some "entry"
  | .Runtime => some "runtime"
  | .Internal _ => some "internal"
  | .Custom _ => none
  | .Undefined => some "undefined"

/-- Method `ReferenceType::is_internal(&self)`. -/
def ReferenceType.is_internal : ReferenceType → Bool
  | .Internal _ => true
  | .Css .Internal => true
  | .Runtime => true
  | _ => false

/-- Classifier used to state claims: is this value one of the six kinds
that carry a subtype family (every such family has an `Undefined`
member)? -/
def ReferenceType.hasSubFamily : ReferenceType → Bool
  | .CommonJs _ => true
  | .EcmaScriptModules _ => true
  | .Css _ => true
  | .Url _ => true
  | .TypeScript _ => true
  | .Entry _ => true
  | _ => false

/-- Classifier used to state claims: is this value a kind applied to its
family's `Undefined` wildcard subtype? -/
def ReferenceType.subUndefined : ReferenceType → Bool
  | .CommonJs .Undefined => true
  | .EcmaScriptModules .Undefined => true
  | .Css .Undefined => true
  | .Url .Undefined => true
  | .TypeScript .Undefined => true
  | .Entry .Undefined => true
  | _ => false

/-- Classifier used to state claims: is this value `Css(AtImport(_))`? -/
def ReferenceType.isCssAtImport : ReferenceType → Bool
  | .Css (.AtImport _) => true
  | _ => false

/-- Classifier used to state claims: is this value a kind applied to its
family's per-kind `Custom(_)` subtype? -/
def ReferenceType.subCustom : ReferenceType → Bool
  | .CommonJs (.Custom _) => true
  | .EcmaScriptModules (.Custom _) => true
  | .Css (.Custom _) => true
  | .Url (.Custom _) => true
  | .TypeScript (.Custom _) => true
  | .Entry (.Custom _) => true
  | _ => false

/-- Modelled from the spec: the filesystem-path handle type
(`Vc<FileSystemPath>`) consumed by the Node policy builders is an opaque
handle owned by a collaborator outside `src/`; modelled as a tagged value
with decidable equality. -/
structure FileSystemPath where
  tag : Nat
deriving DecidableEq, Repr

/-- Modelled from the spec: `ConditionValue` from the resolver options
module (not under `src/`); the spec only distinguishes conditions that
are set from conditions that are unset. -/
inductive ConditionValue where
  | Set
  | Unset
deriving DecidableEq, Repr

/-- Modelled from the spec: `ResolutionConditions`, a mapping from
condition name to `ConditionValue`, built in the source from an array of
pairs; modelled as an ordered association list. -/
def ResolutionConditions : Type := List (String × ConditionValue)

instance : DecidableEq ResolutionConditions :=
  inferInstanceAs (DecidableEq (List (String × ConditionValue)))

/-- Modelled from the spec: the module-lookup strategies of the resolver
options module (not under `src/`); the policy builders use only
`Nested(root, names)`: search nested directories of the given names
starting at the root path. -/
inductive ResolveModules where
  | Nested (root : FileSystemPath) (names : List String)
deriving DecidableEq, Repr

/-- Modelled from the spec: the package-entry resolution strategies
(`ResolveIntoPackage`, not under `src/`): the conditional-exports field
under a condition set, or the named main field. -/
inductive ResolveIntoPackage where
  | ExportsField (conditions : ResolutionConditions)
      (unspecified_conditions : ConditionValue)
  | MainField (field : String)
deriving DecidableEq

/-- Modelled from the spec: the in-package resolution strategies
(`ResolveInPackage`, not under `src/`): the conditional-imports field
under a condition set. -/
inductive ResolveInPackage where
  | ImportsField (conditions : ResolutionConditions)
      (unspecified_conditions : ConditionValue)
deriving DecidableEq

/-- Modelled from the spec: the resolution-policy record
(`ResolveOptions`, not under `src/`) restricted to the fields this core
sets, per the spec's interface description: `extensions`, `modules`,
`into_package`, `in_package`, `default_files`, `fully_specified`. -/
structure ResolveOptions where
  extensions : List String
  modules : List ResolveModules
  into_package : List ResolveIntoPackage
  in_package : List ResolveInPackage
  default_files : List String
  fully_specified : Bool
deriving DecidableEq

/-- Modelled from the spec: `ResolveOptions::default()` (engine-defined
defaults, not under `src/`): empty lists and, per the spec,
extension-less resolution allowed (`fully_specified = false`). -/
def ResolveOptions.default : ResolveOptions :=
  { extensions := []
    modules := []
    into_package := []
    in_package := []
    default_files := []
    fully_specified := false }

/-- Builder `node_cjs_resolve_options(root)` from `resolve/node.rs`. -/
def node_cjs_resolve_options (root : FileSystemPath) : ResolveOptions :=
  let conditions : ResolutionConditions :=
    [("node", ConditionValue.Set), ("require", ConditionValue.Set)]
  let extensions : List String := [".js", ".json", ".node"]
  { ResolveOptions.default with
    extensions := extensions
    modules := [ResolveModules.Nested root ["node_modules"]]
    into_package :=
      [ResolveIntoPackage.ExportsField conditions ConditionValue.Unset,
       ResolveIntoPackage.MainField "main"]
    in_package :=
      [ResolveInPackage.ImportsField conditions ConditionValue.Unset]
    default_files := ["index"] }

/-- Builder `node_esm_resolve_options(root)` from `resolve/node.rs`. -/
def node_esm_resolve_options (root : FileSystemPath) : ResolveOptions :=
  let conditions : ResolutionConditions :=
    [("node", ConditionValue.Set), ("import", ConditionValue.Set)]
  let extensions : List String := [".js", ".json", ".node"]
  { ResolveOptions.default with
    fully_specified := true
    extensions := extensions
    modules := [ResolveModules.Nested root ["node_modules"]]
    into_package :=
      [ResolveIntoPackage.ExportsField conditions ConditionValue.Unset,
       ResolveIntoPackage.MainField "main"]
    in_package :=
      [ResolveInPackage.ImportsField conditions ConditionValue.Unset]
    default_files := ["index"] }

/-- Payload-free shadow of `CommonJsReferenceSubType`. -/
inductive CommonJsSubShape where
  | custom
  | undefined
deriving DecidableEq, Fintype

/-- Payload-free shadow of `EcmaScriptModulesReferenceSubType`. -/
inductive EcmaSubShape where
  | importPart
  | importPlain
  | dynamicImport
  | custom
  | undefined
deriving DecidableEq, Fintype

/-- Payload-free shadow of `CssReferenceSubType`. -/
inductive CssSubShape where
  | atImport
  | compose
  | internal
  | custom
  | undefined
deriving DecidableEq, Fintype

/-- Payload-free shadow of `UrlReferenceSubType`. -/
inductive UrlSubShape where
  | ecmaScriptNewUrl
  | cssUrl
  | custom
  | undefined
deriving DecidableEq, Fintype

/-- Payload-free shadow of `TypeScriptReferenceSubType`. -/
inductive TsSubShape where
  | custom
  | undefined
deriving DecidableEq, Fintype

/-- Payload-free shadow of `EntryReferenceSubType`. -/
inductive EntrySubShape where
  | web
  | page
  | pagesApi
  | appPage
  | appRoute
  | appClientComponent
  | middleware
  | instrumentation
  | runtime
  | custom
  | undefined
deriving DecidableEq, Fintype

/-- Payload-free shadow of `ReferenceType`: the constructor skeleton a
value exposes to `includes_tail`, with every handle payload forgotten. -/
inductive Shape where
  | commonJs (s : CommonJsSubShape)
  | ecmaScriptModules (s : EcmaSubShape)
  | css (s : CssSubShape)
  | url (s : UrlSubShape)
  | typeScript (s : TsSubShape)
  | entry (s : EntrySubShape)
  | runtime
  | internal
  | custom
  | undefined
deriving DecidableEq, Fintype

/-- Shadow of a `CommonJsReferenceSubType` value. -/
def CommonJsReferenceSubType.shape : CommonJsReferenceSubType → CommonJsSubShape
  | .Custom _ => .custom
  | .Undefined => .undefined

/-- Shadow of an `EcmaScriptModulesReferenceSubType` value. -/
def EcmaScriptModulesReferenceSubType.shape :
    EcmaScriptModulesReferenceSubType → EcmaSubShape
  | .ImportPart _ => .importPart
  | .Import => .importPlain
  | .DynamicImport => .dynamicImport
  | .Custom _ => .custom
  | .Undefined => .undefined

/-- Shadow of a `CssReferenceSubType` value. -/
def CssReferenceSubType.shape : CssReferenceSubType → CssSubShape
  | .AtImport _ => .atImport
  | .Compose => .compose
  | .Internal => .internal
  | .Custom _ => .custom
  | .Undefined => .undefined

/-- Shadow of a `UrlReferenceSubType` value. -/
def UrlReferenceSubType.shape : UrlReferenceSubType → UrlSubShape
  | .EcmaScriptNewUrl => .ecmaScriptNewUrl
  | .CssUrl => .cssUrl
  | .Custom _ => .custom
  | .Undefined => .undefined

/-- Shadow of a `TypeScriptReferenceSubType` value. -/
def TypeScriptReferenceSubType.shape : TypeScriptReferenceSubType → TsSubShape
  | .Custom _ => .custom
  | .Undefined => .undefined

/-- Shadow of an `EntryReferenceSubType` value. -/
def EntryReferenceSubType.shape : EntryReferenceSubType → EntrySubShape
  | .Web => .web
  | .Page => .page
  | .PagesApi => .pagesApi
  | .AppPage => .appPage
  | .AppRoute => .appRoute
  | .AppClientComponent => .appClientComponent
  | .Middleware => .middleware
  | .Instrumentation => .instrumentation
  | .Runtime => .runtime
  | .Custom _ => .custom
  | .Undefined => .undefined

/-- Shadow of a `ReferenceType` value. -/
def ReferenceType.shape : ReferenceType → Shape
  | .CommonJs s => .commonJs s.shape
  | .EcmaScriptModules s => .ecmaScriptModules s.shape
  | .Css s => .css s.shape
  | .Url s => .url s.shape
  | .TypeScript s => .typeScript s.shape
  | .Entry s => .entry s.shape
  | .Runtime => .runtime
  | .Internal _ => .internal
  | .Custom _ => .custom
  | .Undefined => .undefined

/-- Shadow of `ReferenceType.includes_tail` on shapes. -/
def Shape.inclTail : Shape → Shape → Option Bool
  | .commonJs sub, o =>
      some ((match o with | .commonJs _ => true | _ => false)
        && (match sub with | .undefined => true | _ => false))
  | .ecmaScriptModules sub, o =>
      some ((match o with | .ecmaScriptModules _ => true | _ => false)
        && (match sub with | .undefined => true | _ => false))
  | .css .atImport, o =>
      some (match o with | .css .atImport => true | _ => false)
  | .css sub, o =>
      some ((match o with | .css _ => true | _ => false)
        && (match sub with | .undefined => true | _ => false))
  | .url sub, o =>
      some ((match o with | .url _ => true | _ => false)
        && (match sub with | .undefined => true | _ => false))
  | .typeScript sub, o =>
      some ((match o with | .typeScript _ => true | _ => false)
        && (match sub with | .undefined => true | _ => false))
  | .entry sub, o =>
      some ((match o with | .entry _ => true | _ => false)
        && (match sub with | .undefined => true | _ => false))
  | .runtime, o => some (match o with | .runtime => true | _ => false)
  | .internal, o => some (match o with | .internal => true | _ => false)
  | .custom, _ => none
  | .undefined, _ => some true

/-- Shadow of `ReferenceType.kind` on shapes. -/
def Shape.kindS : Shape → TopKind
  | .commonJs _ => .commonJs
  | .ecmaScriptModules _ => .ecmaScriptModules
  | .css _ => .css
  | .url _ => .url
  | .typeScript _ => .typeScript
  | .entry _ => .entry
  | .runtime => .runtime
  | .internal => .internal
  | .custom => .custom
  | .undefined => .undefined

/-- Shadow of `ReferenceType.hasSubFamily` on shapes. -/
def Shape.hasSubFamilyS : Shape → Bool
  | .commonJs _ => true
  | .ecmaScriptModules _ => true
  | .css _ => true
  | .url _ => true
  | .typeScript _ => true
  | .entry _ => true
  | _ => false

/-- Shadow of `ReferenceType.subUndefined` on shapes. -/
def Shape.subUndefinedS : Shape → Bool
  | .commonJs .undefined => true
  | .ecmaScriptModules .undefined => true
  | .css .undefined => true
  | .url .undefined => true
  | .typeScript .undefined => true
  | .entry .undefined => true
  | _ => false

/-- Shadow of `ReferenceType.isCssAtImport` on shapes. -/
def Shape.isCssAtImportS : Shape → Bool
  | .css .atImport => true
  | _ => false

/-- Shadow of `ReferenceType.subCustom` on shapes. -/
def Shape.subCustomS : Shape → Bool
  | .commonJs .custom => true
  | .ecmaScriptModules .custom => true
  | .css .custom => true
  | .url .custom => true
  | .typeScript .custom => true
  | .entry .custom => true
  | _ => false

lemma includes_tail_shape (a b : ReferenceType) :
    a.includes_tail b = Shape.inclTail a.shape b.shape := by
  cases a <;> cases b <;>
    first
      | rfl
      | (rename_i s t; cases s <;> cases t <;> rfl)
      | (rename_i s; cases s <;> rfl)

lemma kind_shape (a : ReferenceType) : a.kind = a.shape.kindS := by
  cases a <;> rfl

lemma hasSubFamily_shape (a : ReferenceType) :
    a.hasSubFamily = a.shape.hasSubFamilyS := by
  cases a <;> rfl

lemma subUndefined_shape (a : ReferenceType) :
    a.subUndefined = a.shape.subUndefinedS := by
  cases a <;> first | rfl | (rename_i s; cases s <;> rfl)

lemma isCssAtImport_shape (a : ReferenceType) :
    a.isCssAtImport = a.shape.isCssAtImportS := by
  cases a <;> first | rfl | (rename_i s; cases s <;> rfl)

lemma subCustom_shape (a : ReferenceType) :
    a.subCustom = a.shape.subCustomS := by
  cases a <;> first | rfl | (rename_i s; cases s <;> rfl)

lemma shape_undefined_iff (a : ReferenceType) :
    a.shape = Shape.undefined ↔ a = ReferenceType.Undefined := by
  cases a <;> simp [ReferenceType.shape]

lemma shape_runtime_iff (a : ReferenceType) :
    a.shape = Shape.runtime ↔ a = ReferenceType.Runtime := by
  cases a <;> simp [ReferenceType.shape]

lemma shape_custom_iff (a : ReferenceType) :
    a.shape = Shape.custom ↔ ∃ n, a = ReferenceType.Custom n := by
  cases a <;> simp [ReferenceType.shape]

lemma includes_of_ne (a b : ReferenceType) (h : a ≠ b) :
    a.includes b = Shape.inclTail a.shape b.shape := by
  rw [ReferenceType.includes, if_neg h, includes_tail_shape]

lemma includes_self (a : ReferenceType) : a.includes a = some true := by
  rw [ReferenceType.includes, if_pos rfl]

/-- Helper used to state the accumulator claims: append a present value
at the end of the list when it is not already an element; keep the list
unchanged when the value is absent or already present. -/
def pushIfAbsent (xs : List String) : Option String → List String
  | some v => if v ∈ xs then xs else xs ++ [v]
  | none => xs

lemma add_attributes_eq (ctx : ImportContext) (l m s : Option String) :
    ctx.add_attributes l m s =
      { layers := pushIfAbsent ctx.layers l
        media := pushIfAbsent ctx.media m
        supports := pushIfAbsent ctx.supports s } := by
  cases l <;> cases m <;> cases s <;> rfl

lemma pushIfAbsent_idem (xs : List String) (o : Option String) :
    pushIfAbsent (pushIfAbsent xs o) o = pushIfAbsent xs o := by
  cases o with
  | none => rfl
  | some v =>
    simp only [pushIfAbsent]
    by_cases h : v ∈ xs
    · simp [h]
    · simp [h, List.mem_append]

/-- C1: `includes` returns `true` only when both operands have the same
top-level kind or the left operand is top-level `Undefined`, and
`Undefined.includes(x)` is `true` for every `x`. -/
theorem C1_includes_same_kind_or_undefined :
    (∀ a b : ReferenceType, a.includes b = some true →
        a.kind = b.kind ∨ a = ReferenceType.Undefined)
    ∧ (∀ x : ReferenceType, ReferenceType.Undefined.includes x = some true) := by
  constructor
  · intro a b h
    by_cases hab : a = b
    · exact Or.inl (by rw [hab])
    · rw [includes_of_ne a b hab] at h
      rw [kind_shape, kind_shape, ← shape_undefined_iff]
      revert h
      exact (by decide :
        ∀ sa sb : Shape, Shape.inclTail sa sb = some true →
          sa.kindS = sb.kindS ∨ sa = Shape.undefined) a.shape b.shape
  · intro x
    by_cases h : ReferenceType.Undefined = x
    · rw [← h]; exact includes_self _
    · rw [includes_of_ne _ _ h]; rfl

theorem C1_witness :
    (ReferenceType.CommonJs .Undefined).kind
        = (ReferenceType.CommonJs (.Custom 3)).kind
      ∨ ReferenceType.CommonJs .Undefined = ReferenceType.Undefined :=
  C1_includes_same_kind_or_undefined.1 (ReferenceType.CommonJs .Undefined)
    (ReferenceType.CommonJs (.Custom 3)) (by decide)

/-- C2 counterexample: the two distinct non-`Undefined` Css subtypes
`AtImport(None)` and `AtImport(Some ctx)` do subsume each other, so the
claim's "distinct non-`Undefined` subtypes never subsume each other"
sentence fails as stated. -/
theorem C2_counterexample :
    (ReferenceType.Css (.AtImport none)).includes
        (ReferenceType.Css (.AtImport (some 1))) = some true
    ∧ CssReferenceSubType.AtImport none ≠ CssReferenceSubType.AtImport (some 1)
    ∧ CssReferenceSubType.AtImport none ≠ CssReferenceSubType.Undefined
    ∧ CssReferenceSubType.AtImport (some 1) ≠ CssReferenceSubType.Undefined := by
  decide

/-- C2 (amended): for every kind carrying a subtype family, the family's
`Undefined` subsumes every same-kind value, is subsumed only by itself
among same-kind left operands, and distinct same-kind non-`Undefined`
subtypes never subsume each other, except when both sides are Css
`AtImport(_)` values. -/
theorem C2_wildcard_subsumption :
    ∀ a b : ReferenceType, a.kind = b.kind → a.hasSubFamily = true →
      ((a.subUndefined = true → a.includes b = some true)
        ∧ (b.subUndefined = true →
            (a.includes b = some true ↔ a.subUndefined = true))
        ∧ (a.subUndefined = false → b.subUndefined = false → a ≠ b →
            (a.isCssAtImport && b.isCssAtImport) = false →
            a.includes b = some false)) := by
  intro a b hk hf
  refine ⟨?_, ?_, ?_⟩
  · intro hs
    by_cases hab : a = b
    · rw [hab]; exact includes_self b
    · rw [includes_of_ne a b hab]
      rw [kind_shape, kind_shape] at hk
      rw [subUndefined_shape] at hs
      exact (by decide :
        ∀ sa sb : Shape, sa.kindS = sb.kindS → sa.subUndefinedS = true →
          Shape.inclTail sa sb = some true) a.shape b.shape hk hs
  · intro hbu
    by_cases hab : a = b
    · subst hab
      simp [includes_self, hbu]
    · rw [includes_of_ne a b hab]
      rw [kind_shape, kind_shape] at hk
      rw [hasSubFamily_shape] at hf
      rw [subUndefined_shape] at hbu
      rw [subUndefined_shape]
      exact (by decide :
        ∀ sa sb : Shape, sa.kindS = sb.kindS → sa.hasSubFamilyS = true →
          sb.subUndefinedS = true →
          (Shape.inclTail sa sb = some true ↔ sa.subUndefinedS = true))
        a.shape b.shape hk hf hbu
  · intro hau hbu hab hcss
    rw [includes_of_ne a b hab]
    rw [kind_shape, kind_shape] at hk
    rw [hasSubFamily_shape] at hf
    rw [subUndefined_shape] at hau hbu
    rw [isCssAtImport_shape, isCssAtImport_shape] at hcss
    exact (by decide :
      ∀ sa sb : Shape, sa.kindS = sb.kindS → sa.hasSubFamilyS = true →
        sa.subUndefinedS = false → sb.subUndefinedS = false →
        (sa.isCssAtImportS && sb.isCssAtImportS) = false →
        Shape.inclTail sa sb = some false) a.shape b.shape hk hf hau hbu hcss

theorem C2_witness :
    (ReferenceType.CommonJs (.Custom 1)).includes
        (ReferenceType.CommonJs (.Custom 2)) = some false :=
  (C2_wildcard_subsumption (ReferenceType.CommonJs (.Custom 1))
      (ReferenceType.CommonJs (.Custom 2)) (by decide) (by decide)).2.2
    (by decide) (by decide) (by decide) (by decide)

/-- C3: any two Css `AtImport` values subsume each other whatever the
carried contexts; any two `Internal` values subsume each other whatever
the payloads; `Runtime` subsumes exactly `Runtime`. -/
theorem C3_atimport_internal_runtime :
    (∀ c1 c2 : Option Nat,
        (ReferenceType.Css (.AtImport c1)).includes
          (ReferenceType.Css (.AtImport c2)) = some true)
    ∧ (∀ p1 p2 : Nat,
        (ReferenceType.Internal p1).includes (ReferenceType.Internal p2)
          = some true)
    ∧ (∀ x : ReferenceType,
        (ReferenceType.Runtime.includes x = some true
          ↔ x = ReferenceType.Runtime)) := by
  refine ⟨?_, ?_, ?_⟩
  · intro c1 c2
    by_cases h :
        ReferenceType.Css (.AtImport c1) = ReferenceType.Css (.AtImport c2)
    · rw [h]; exact includes_self _
    · rw [includes_of_ne _ _ h]; rfl
  · intro p1 p2
    by_cases h : ReferenceType.Internal p1 = ReferenceType.Internal p2
    · rw [h]; exact includes_self _
    · rw [includes_of_ne _ _ h]; rfl
  · intro x
    constructor
    · intro h
      by_cases hx : ReferenceType.Runtime = x
      · exact hx.symm
      · rw [includes_of_ne _ _ hx] at h
        rw [← shape_runtime_iff]
        revert h
        exact (by decide :
          ∀ sb : Shape, Shape.inclTail Shape.runtime sb = some true →
            sb = Shape.runtime) x.shape
    · intro hx
      rw [hx]
      exact includes_self _

theorem C3_witness :
    ReferenceType.Runtime.includes ReferenceType.Runtime = some true :=
  (C3_atimport_internal_runtime.2.2 ReferenceType.Runtime).mpr rfl

/-- C4: `add_attributes` treats the three families independently,
appending a present value at the end exactly when it is not already an
element and leaving the family unchanged otherwise; adding nothing
returns content equal to the receiver; a repeated add is a no-op, so a
value inserted twice occurs once. -/
theorem C4_add_attributes_spec :
    ∀ (ctx : ImportContext) (l m s : Option String) (a : String),
      ((ctx.add_attributes l m s).layers = pushIfAbsent ctx.layers l
        ∧ (ctx.add_attributes l m s).media = pushIfAbsent ctx.media m
        ∧ (ctx.add_attributes l m s).supports = pushIfAbsent ctx.supports s)
      ∧ ctx.add_attributes none none none = ctx
      ∧ (ctx.add_attributes l m s).add_attributes l m s
          = ctx.add_attributes l m s
      ∧ (a ∉ ctx.layers →
          ((ctx.add_attributes (some a) none none).add_attributes
              (some a) none none).layers.count a = 1) := by
  intro ctx l m s a
  refine ⟨⟨?_, ?_, ?_⟩, ?_, ?_, ?_⟩
  · rw [add_attributes_eq]
  · rw [add_attributes_eq]
  · rw [add_attributes_eq]
  · cases ctx; rfl
  · rw [add_attributes_eq, add_attributes_eq]
    simp [pushIfAbsent_idem]
  · intro ha
    rw [add_attributes_eq, add_attributes_eq]
    simp only [pushIfAbsent_idem]
    simp [pushIfAbsent, if_neg ha, List.count_append,
      List.count_eq_zero.mpr ha]

theorem C4_witness :
    ((({ layers := [], supports := [], media := [] } :
          ImportContext).add_attributes (some "a") none none).add_attributes
        (some "a") none none).layers.count "a" = 1 :=
  (C4_add_attributes_spec { layers := [], supports := [], media := [] }
      (some "a") none none "a").2.2.2 (by decide)

/-- C5: the CommonJS policy builder fills the policy record exactly as
the spec describes: node+require conditions, the three probed
extensions in order, one nested node_modules lookup rooted at the
argument, exports-then-main entry resolution, imports-field in-package
resolution with the same conditions, index default file, and
extension-less resolution allowed. -/
theorem C5_node_cjs_options_shape :
    ∀ root : FileSystemPath,
      (node_cjs_resolve_options root).extensions = [".js", ".json", ".node"]
      ∧ (node_cjs_resolve_options root).modules
          = [ResolveModules.Nested root ["node_modules"]]
      ∧ (node_cjs_resolve_options root).into_package
          = [ResolveIntoPackage.ExportsField
              [("node", ConditionValue.Set), ("require", ConditionValue.Set)]
              ConditionValue.Unset,
            ResolveIntoPackage.MainField "main"]
      ∧ (node_cjs_resolve_options root).in_package
          = [ResolveInPackage.ImportsField
              [("node", ConditionValue.Set), ("require", ConditionValue.Set)]
              ConditionValue.Unset]
      ∧ (node_cjs_resolve_options root).default_files = ["index"]
      ∧ (node_cjs_resolve_options root).fully_specified = false :=
  fun _ => ⟨rfl, rfl, rfl, rfl, rfl, rfl⟩

/-- Comparison helper following the spec's words for C6: replace every
condition set occurring in a policy record's package-field strategies by
the given one, leaving all other content alone. -/
def ResolveOptions.with_conditions (conds : ResolutionConditions)
    (o : ResolveOptions) : ResolveOptions :=
  { o with
    into_package := o.into_package.map fun p =>
      match p with
      | .ExportsField _ u => .ExportsField conds u
      | .MainField f => .MainField f
    in_package := o.in_package.map fun p =>
      match p with
      | .ImportsField _ u => .ImportsField conds u }

/-- C6: the ESM policy record equals the CommonJS record with the
condition set replaced by node+import and `fully_specified` flipped to
`true`; everything else is identical. -/
theorem C6_esm_equals_cjs_modulo :
    ∀ root : FileSystemPath,
      node_esm_resolve_options root =
        ResolveOptions.with_conditions
          [("node", ConditionValue.Set), ("import", ConditionValue.Set)]
          { node_cjs_resolve_options root with fully_specified := true }
      ∧ (node_cjs_resolve_options root).fully_specified = false
      ∧ (node_esm_resolve_options root).fully_specified = true :=
  fun _ => ⟨rfl, rfl, rfl⟩

/-- C7: the top-level `Custom` arm of `includes` and of the display
rendering is an explicit failure (modelled as `none`), never a silent
boolean or label, while every other arm of both operations is total. -/
theorem C7_custom_unsupported :
    (∀ (n : Nat) (x : ReferenceType), x ≠ ReferenceType.Custom n →
        (ReferenceType.Custom n).includes x = none)
    ∧ (∀ n : Nat, (ReferenceType.Custom n).display = none)
    ∧ (∀ v w : ReferenceType, v.kind ≠ TopKind.custom →
        (v.includes w).isSome = true)
    ∧ (∀ v : ReferenceType, v.kind ≠ TopKind.custom →
        (v.display).isSome = true) := by
  refine ⟨?_, ?_, ?_, ?_⟩
  · intro n x hx
    rw [includes_of_ne _ _ (fun h => hx h.symm)]
    rfl
  · intro n; rfl
  · intro v w hv
    by_cases hvw : v = w
    · rw [hvw, includes_self]; rfl
    · rw [includes_of_ne _ _ hvw]
      rw [kind_shape] at hv
      revert hv
      exact (by decide :
        ∀ sa sb : Shape, sa.kindS ≠ TopKind.custom →
          (Shape.inclTail sa sb).isSome = true) v.shape w.shape
  · intro v hv
    cases v <;>
      first
        | rfl
        | (rename_i s; cases s <;> rfl)
        | (exact absurd rfl hv)

theorem C7_witness :
    (ReferenceType.Custom 0).includes ReferenceType.Undefined = none
    ∧ ((ReferenceType.Css .Compose).includes ReferenceType.Runtime).isSome
        = true :=
  ⟨C7_custom_unsupported.1 0 ReferenceType.Undefined (by decide),
   C7_custom_unsupported.2.2.1 (ReferenceType.Css .Compose)
     ReferenceType.Runtime (by decide)⟩

/-- C8: `is_internal` holds exactly for `Internal(_)` with any payload,
`Css(Internal)` and `Runtime`, and in particular fails for
`CommonJs(Undefined)`. -/
theorem C8_is_internal_spec :
    (∀ v : ReferenceType,
        v.is_internal = true ↔
          ((∃ p, v = ReferenceType.Internal p)
            ∨ v = ReferenceType.Css .Internal
            ∨ v = ReferenceType.Runtime))
    ∧ (ReferenceType.CommonJs .Undefined).is_internal = false := by
  constructor
  · intro v
    cases v <;>
      first
        | (rename_i s; cases s <;> simp [ReferenceType.is_internal])
        | simp [ReferenceType.is_internal]
  · rfl

theorem C8_witness : (ReferenceType.Runtime).is_internal = true :=
  (C8_is_internal_spec.1 ReferenceType.Runtime).mpr (Or.inr (Or.inr rfl))

/-- C9 counterexample: in the source, `new`'s second positional argument
becomes the media family and its third the supports family, and
`add_attributes`'s second optional argument conditions the media family,
contradicting the claimed (layers, supports, media) order. -/
theorem C9_counterexample :
    (ImportContext.new [] ["x"] ["y"]).media = ["x"]
    ∧ (ImportContext.new [] ["x"] ["y"]).supports = ["y"]
    ∧ (ImportContext.new [] ["x"] ["y"]).supports ≠ ["x"]
    ∧ ((ImportContext.new [] [] []).add_attributes none (some "x") none).media
        = ["x"]
    ∧ ((ImportContext.new [] [] []).add_attributes none (some "x") none).supports
        = [] := by
  decide

/-- C9 (amended): `new` takes its sequence arguments in the positional
order (layers, media, supports) — the second argument becomes the media
family and the third the supports family — and `add_attributes` takes
its optional arguments in the positional order (layer, media, supports),
so its second optional argument conditions the media family and its
third the supports family. -/
theorem C9_argument_order :
    ∀ (ls ms ss : List String) (l m s : Option String) (ctx : ImportContext),
      (ImportContext.new ls ms ss).layers = ls
      ∧ (ImportContext.new ls ms ss).media = ms
      ∧ (ImportContext.new ls ms ss).supports = ss
      ∧ (ctx.add_attributes l m s).layers = pushIfAbsent ctx.layers l
      ∧ (ctx.add_attributes l m s).media = pushIfAbsent ctx.media m
      ∧ (ctx.add_attributes l m s).supports = pushIfAbsent ctx.supports s := by
  intro ls ms ss l m s ctx
  rw [add_attributes_eq]
  exact ⟨rfl, rfl, rfl, rfl, rfl, rfl⟩

/-- C10: a per-kind `Custom` subtype on the left silently yields `false`
against any different same-kind value — no failure signal — and the
display rendering gives per-kind `Custom` subtypes the kind's ordinary
label. -/
theorem C10_subkind_custom_silent :
    (∀ v w : ReferenceType, v.subCustom = true → v ≠ w → v.kind = w.kind →
        v.includes w = some false)
    ∧ (∀ n : Nat, (ReferenceType.CommonJs (.Custom n)).display
        = some "commonjs")
    ∧ (∀ n : Nat, (ReferenceType.EcmaScriptModules (.Custom n)).display
        = some "EcmaScript Modules")
    ∧ (∀ n : Nat, (ReferenceType.Css (.Custom n)).display = some "css")
    ∧ (∀ n : Nat, (ReferenceType.Url (.Custom n)).display = some "url")
    ∧ (∀ n : Nat, (ReferenceType.TypeScript (.Custom n)).display
        = some "typescript")
    ∧ (∀ n : Nat, (ReferenceType.Entry (.Custom n)).display = some "entry") := by
  refine ⟨?_, fun n => rfl, fun n => rfl, fun n => rfl, fun n => rfl,
    fun n => rfl, fun n => rfl⟩
  intro v w hc hne hk
  rw [includes_of_ne _ _ hne]
  rw [subCustom_shape] at hc
  rw [kind_shape, kind_shape] at hk
  exact (by decide :
    ∀ sa sb : Shape, sa.subCustomS = true → sa.kindS = sb.kindS →
      Shape.inclTail sa sb = some false) v.shape w.shape hc hk

theorem C10_witness :
    (ReferenceType.CommonJs (.Custom 1)).includes
        (ReferenceType.CommonJs .Undefined) = some false :=
  C10_subkind_custom_silent.1 (ReferenceType.CommonJs (.Custom 1))
    (ReferenceType.CommonJs .Undefined) (by decide) (by decide) (by decide)
